import Mathlib

/-!
# Verification of the IEC 62320-1 sentence layer (py_iec_62320)

Shallow embedding of `src/iec_62320/part_1/sentences.py`:

* `TSASentence` and its `string` property (wire formatting with checksum);
* `SentenceGenerator` and `generate_tsa_vdm` (control sentence plus payload
  fragments, with the rolling `vdm_sequential_id` counter).

The two collaborators imported from the separate `iec_61162` package are not
part of this repository's sources: `iec_checksum` is modelled from the spec,
and `ais_msg_bs_to_vdm_sentences` is taken as an abstract collaborator
parameter of `generate_tsa_vdm` (the code only counts and regroups its
result, never inspecting it).
-/

/-- XOR (exclusive-or) of the byte values of a list of characters,
as a left fold starting from 0.  This is the claim-side notion of
"running exclusive-or of the byte value of every character". -/
def xorBytes (l : List Char) : Nat :=
  l.foldl (fun a c => a ^^^ c.toNat) 0

/-- Modelled from the spec: `iec_checksum` is imported from
`iec_61162.part_1.sentences`, which is not part of this repository.
Spec section 6 defines it as the exclusive-or of the byte values of the text,
and sections 4.1 and 8 state that the span checksummed starts strictly after
the leading `$` (the formatter passes the sentence including its leading `$`).
So: drop one leading `$` if present, then XOR the byte values of the rest. -/
def iec_checksum (text : String) : Nat :=
  match text.toList with
  | '$' :: rest => xorBytes rest
  | _ => xorBytes text.toList

/-- Uppercase hexadecimal rendering of a natural number, no leading zeros
(Python `"{:X}".format`). -/
def natToHexUpper (n : Nat) : String :=
  ((Nat.toDigits 16 n).map Char.toUpper).asString

/-- Python `"{:>02X}".format`: uppercase hexadecimal, right-aligned,
zero-padded to a minimum width of two digits. -/
def fmtHex02 (n : Nat) : String :=
  let s := natToHexUpper n
  if s.length < 2 then "0" ++ s else s

/-- Embedding of the `TSASentence` class: AIS transmit slot assignment.
Field names follow the source.  `vdm_link` and `priority` are Python
integers rendered with `{:d}`; the remaining fields are strings rendered
with `{:s}`. -/
structure TSASentence where
  vdm_link : Int
  channel : String
  talker_id : String
  unique_id : String
  utc_hhmm : String
  start_slot : String
  priority : Int
deriving DecidableEq, Repr

/-- The class attribute `formatter_code = "TSA"`. -/
def TSASentence.formatter_code : String := "TSA"

/-- The checksummed body of the sentence: everything the format string
`"${:s}{:s},{:s},{:d},{:s},{:s},{:s},{:d}"` produces after the leading `$`
(talker ID, formatter code, then the comma-separated fields). -/
def TSASentence.body (t : TSASentence) : String :=
  t.talker_id ++ TSASentence.formatter_code ++ "," ++ t.unique_id ++ ","
    ++ toString t.vdm_link ++ "," ++ t.channel ++ "," ++ t.utc_hhmm ++ ","
    ++ t.start_slot ++ "," ++ toString t.priority

/-- Embedding of the `TSASentence.string` property: build the `$`-prefixed
comma-separated sentence, append `*`, the checksum as two zero-padded
uppercase hex digits, and CRLF. -/
def TSASentence.string (t : TSASentence) : String :=
  let s := "$" ++ t.body
  s ++ "*" ++ fmtHex02 (iec_checksum s) ++ "\r\n"

/-- A sentence in the output of the generator: either the TSA control
sentence or one of the (opaque) VDM payload sentences produced by the
fragmentation collaborator. -/
inductive GenSentence (α : Type) where
  | tsa : TSASentence → GenSentence α
  | vdm : α → GenSentence α
deriving DecidableEq, Repr

/-- Embedding of the `SentenceGenerator` class state: a fixed talker ID and
the mutable rolling sequential ID. -/
structure SentenceGenerator where
  talker_id : String
  vdm_sequential_id : Nat
deriving DecidableEq, Repr

/-- `SentenceGenerator.__init__`: store the talker ID and set
`vdm_sequential_id = 0`. -/
def SentenceGenerator.init (talker_id : String) : SentenceGenerator :=
  SentenceGenerator.mk talker_id 0

/-- Embedding of `SentenceGenerator.generate_tsa_vdm`.  The fragmentation
collaborator `ais_msg_bs_to_vdm_sentences` (external to this repository) is a
parameter taking the message bitstream, the sequential ID, the channel and
the talker ID; it may fail (`Except`), in which case the Python exception
propagates before the counter update.  The Python call constructs the
`TSASentence` with only `vdm_link`, `channel` and `talker_id`, so the
remaining fields take the constructor defaults `""`, `""`, `""` and `2`;
the `unique_id`, `utc_hhmm`, `start_slot` and `priority` parameters of
`generate_tsa_vdm` itself are accepted but never used, as in the source.
Python mutation of `self.vdm_sequential_id` becomes explicit state passing:
the result pairs the returned group list with the post-call state. -/
def SentenceGenerator.generate_tsa_vdm {μ α ε : Type}
    (self : SentenceGenerator)
    (ais_msg_bs_to_vdm_sentences : μ → Nat → String → String → Except ε (List α))
    (msg_bs : μ) (channel : String)
    (unique_id utc_hhmm start_slot : String) (priority : Int) :
    Except ε (List (List (GenSentence α))) × SentenceGenerator :=
  let tsa_sentence : TSASentence :=
    TSASentence.mk (Int.ofNat self.vdm_sequential_id) channel self.talker_id "" "" "" 2
  match ais_msg_bs_to_vdm_sentences msg_bs self.vdm_sequential_id channel self.talker_id with
  | Except.error e => (Except.error e, self)
  | Except.ok vdm_sentences =>
      let next :=
        if vdm_sentences.length > 1 then
          SentenceGenerator.mk self.talker_id ((self.vdm_sequential_id + 1) % 10)
        else self
      (Except.ok ([[GenSentence.tsa tsa_sentence]] ++ [vdm_sentences.map GenSentence.vdm]),
       next)

/-- A generator state is reachable when it arises from `SentenceGenerator.init`
by any finite sequence of `generate_tsa_vdm` calls, with arbitrary
collaborators, messages and parameters at each call. -/
inductive SentenceGenerator.Reachable : SentenceGenerator → Prop where
  | start (talker_id : String) :
      SentenceGenerator.Reachable (SentenceGenerator.init talker_id)
  | step {μ α ε : Type} (s : SentenceGenerator)
      (frag : μ → Nat → String → String → Except ε (List α))
      (msg_bs : μ) (channel unique_id utc_hhmm start_slot : String) (priority : Int) :
      SentenceGenerator.Reachable s →
      SentenceGenerator.Reachable
        (s.generate_tsa_vdm frag msg_bs channel unique_id utc_hhmm start_slot priority).2

/-! ## Helper lemmas about strings and the checksum -/

theorem strToList_append (a b : String) : (a ++ b).toList = a.toList ++ b.toList := by
  cases a
  cases b
  rfl

theorem strExt (a b : String) (h : a.toList = b.toList) : a = b := by
  cases a
  cases b
  exact congrArg String.mk h

theorem iec_checksum_dollar (b : String) :
    iec_checksum ("$" ++ b) = xorBytes b.toList := by
  cases b
  rfl

theorem xorBytes_foldl_lt (l : List Char) :
    ∀ a : Nat, a < 256 → (∀ c ∈ l, c.toNat < 256) →
      l.foldl (fun a c => a ^^^ c.toNat) a < 256 := by
  induction l with
  | nil =>
    intro a ha _
    simpa using ha
  | cons c cs ih =>
    intro a ha hc
    simp only [List.foldl_cons]
    refine ih _ ?_ (fun d hd => hc d (List.mem_cons_of_mem c hd))
    have h8 : (256 : Nat) = 2 ^ 8 := by norm_num
    rw [h8]
    exact Nat.xor_lt_two_pow (h8 ▸ ha) (h8 ▸ hc c (List.mem_cons_self c cs))

theorem xorBytes_lt (l : List Char) (h : ∀ c ∈ l, c.toNat < 256) :
    xorBytes l < 256 :=
  xorBytes_foldl_lt l 0 (by norm_num) h

set_option maxRecDepth 4096 in
theorem fmtHex02_byte : ∀ k : Nat, k < 256 →
    (fmtHex02 k).length = 2 ∧ ∀ c ∈ (fmtHex02 k).toList, c ∈ "0123456789ABCDEF".toList := by
  decide

theorem digitChar_toNat_lt (n : Nat) (h : n < 16) : (Nat.digitChar n).toNat < 256 := by
  interval_cases n <;> decide

theorem toDigitsCore_bytes (b : Nat) (hb0 : 0 < b) (hb16 : b ≤ 16) :
    ∀ (f n : Nat) (l : List Char), (∀ c ∈ l, c.toNat < 256) →
      ∀ c ∈ Nat.toDigitsCore b f n l, c.toNat < 256 := by
  have hmod : ∀ n : Nat, n % b < 16 := fun n => lt_of_lt_of_le (Nat.mod_lt n hb0) hb16
  intro f
  induction f with
  | zero =>
    intro n l hl c hc
    exact hl c hc
  | succ f ih =>
    intro n l hl c hc
    simp only [Nat.toDigitsCore] at hc
    by_cases hnb : n / b = 0
    · rw [if_pos hnb] at hc
      rcases List.mem_cons.mp hc with h1 | h2
      · rw [h1]
        exact digitChar_toNat_lt _ (hmod n)
      · exact hl c h2
    · rw [if_neg hnb] at hc
      refine ih (n / b) (Nat.digitChar (n % b) :: l) ?_ c hc
      intro d hd
      rcases List.mem_cons.mp hd with h1 | h2
      · rw [h1]
        exact digitChar_toNat_lt _ (hmod n)
      · exact hl d h2

theorem natRepr_bytes (n : Nat) : ∀ c ∈ (Nat.repr n).toList, c.toNat < 256 := by
  intro c hc
  have hc2 : c ∈ Nat.toDigitsCore 10 (n + 1) n [] := hc
  exact toDigitsCore_bytes 10 (by norm_num) (by norm_num) (n + 1) n []
    (fun d hd => absurd hd (List.not_mem_nil d)) c hc2

theorem intToString_bytes (i : Int) : ∀ c ∈ (toString i).toList, c.toNat < 256 := by
  cases i with
  | ofNat m =>
    intro c hc
    exact natRepr_bytes m c hc
  | negSucc m =>
    intro c hc
    have hc2 : c ∈ ("-" ++ Nat.repr (Nat.succ m)).toList := hc
    rw [strToList_append] at hc2
    rcases List.mem_append.mp hc2 with h1 | h2
    · have h1' : c ∈ ['-'] := h1
      rw [List.mem_singleton.mp h1']
      decide
    · exact natRepr_bytes (Nat.succ m) c h2

theorem tsa_body_bytes (t : TSASentence)
    (hb : ∀ c ∈ (t.talker_id ++ t.unique_id ++ t.channel ++ t.utc_hhmm ++ t.start_slot).toList,
      c.toNat < 256) :
    ∀ c ∈ t.body.toList, c.toNat < 256 := by
  intro c hc
  simp only [TSASentence.body, TSASentence.formatter_code, strToList_append,
    List.mem_append, or_assoc] at hc
  simp only [strToList_append, List.mem_append, or_assoc] at hb
  have hbT : ∀ d ∈ t.talker_id.toList, d.toNat < 256 := fun d hd => hb d (Or.inl hd)
  have hbU : ∀ d ∈ t.unique_id.toList, d.toNat < 256 :=
    fun d hd => hb d (Or.inr (Or.inl hd))
  have hbC : ∀ d ∈ t.channel.toList, d.toNat < 256 :=
    fun d hd => hb d (Or.inr (Or.inr (Or.inl hd)))
  have hbH : ∀ d ∈ t.utc_hhmm.toList, d.toNat < 256 :=
    fun d hd => hb d (Or.inr (Or.inr (Or.inr (Or.inl hd))))
  have hbS : ∀ d ∈ t.start_slot.toList, d.toNat < 256 :=
    fun d hd => hb d (Or.inr (Or.inr (Or.inr (Or.inr hd))))
  have hTSA : ∀ d ∈ ("TSA" : String).toList, d.toNat < 256 := by decide
  have hcomma : ∀ d ∈ ("," : String).toList, d.toNat < 256 := by decide
  rcases hc with h | h | h | h | h | h | h | h | h | h | h | h | h | h
  · exact hbT c h
  · exact hTSA c h
  · exact hcomma c h
  · exact hbU c h
  · exact hcomma c h
  · exact intToString_bytes t.vdm_link c h
  · exact hcomma c h
  · exact hbC c h
  · exact hcomma c h
  · exact hbH c h
  · exact hcomma c h
  · exact hbS c h
  · exact hcomma c h
  · exact intToString_bytes t.priority c h

/-! ## Theorems for the claims about `TSASentence.string` -/

/-- C1: the two hex digits appended after `*` encode the exclusive-or of the
byte values of every character of the sentence strictly after the leading `$`
and strictly before the `*` delimiter (the span is exactly `t.body`); and the
default-field sentence with `vdm_link = 0`, channel `A`, talker `AI` formats
to exactly `$AITSA,,0,A,,,2*0D\r\n`, where `0D` is the checksum of
`AITSA,,0,A,,,2` (the `$` excluded from the checksum input). -/
theorem tsa_checksum_spans_body :
    (∀ t : TSASentence,
      t.string = "$" ++ t.body ++ "*" ++ fmtHex02 (xorBytes t.body.toList) ++ "\r\n") ∧
    (TSASentence.mk 0 "A" "AI" "" "" "" 2).string = "$AITSA,,0,A,,,2*0D\r\n" ∧
    fmtHex02 (xorBytes ("AITSA,,0,A,,,2".toList)) = "0D" := by
  refine ⟨fun t => ?_, by rfl, by rfl⟩
  have hck : iec_checksum ("$" ++ t.body) = xorBytes t.body.toList :=
    iec_checksum_dollar t.body
  apply strExt
  simp only [TSASentence.string, hck, strToList_append, List.append_assoc]

/-- C4: the wire string is `$`, talker ID, `TSA`, then the six data fields
comma-separated in order (integers in decimal, strings verbatim), terminated
by `*`, exactly two uppercase zero-padded hex digits, and CRLF.  The fields
are assumed byte-valued (`c.toNat < 256` for each character), as any
syntactically representable wire sentence is. -/
theorem tsa_string_field_order (t : TSASentence)
    (hb : ∀ c ∈ (t.talker_id ++ t.unique_id ++ t.channel ++ t.utc_hhmm ++ t.start_slot).toList,
      c.toNat < 256) :
    ∃ k : Nat, k < 256 ∧
      t.string = "$" ++ t.talker_id ++ "TSA" ++ "," ++ t.unique_id ++ ","
          ++ toString t.vdm_link ++ "," ++ t.channel ++ "," ++ t.utc_hhmm ++ ","
          ++ t.start_slot ++ "," ++ toString t.priority
          ++ "*" ++ fmtHex02 k ++ "\r\n" ∧
      (fmtHex02 k).length = 2 ∧
      ∀ c ∈ (fmtHex02 k).toList, c ∈ "0123456789ABCDEF".toList := by
  have hk : xorBytes t.body.toList < 256 := xorBytes_lt _ (tsa_body_bytes t hb)
  refine ⟨xorBytes t.body.toList, hk, ?_, (fmtHex02_byte _ hk).1, (fmtHex02_byte _ hk).2⟩
  have hck : iec_checksum ("$" ++ t.body) = xorBytes t.body.toList :=
    iec_checksum_dollar t.body
  have hstr : t.string = "$" ++ t.body ++ "*" ++ fmtHex02 (xorBytes t.body.toList) ++ "\r\n" := by
    simp only [TSASentence.string, hck]
  rw [hstr]
  apply strExt
  simp only [TSASentence.body, TSASentence.formatter_code, strToList_append,
    List.append_assoc]

/-- Witness for C4 at a concrete sentence. -/
theorem tsa_string_field_order_witness :
    ∃ k : Nat, k < 256 ∧
      (TSASentence.mk 0 "A" "AI" "" "" "" 2).string
        = "$" ++ "AI" ++ "TSA" ++ "," ++ "" ++ "," ++ toString (0 : Int) ++ ","
            ++ "A" ++ "," ++ "" ++ "," ++ "" ++ "," ++ toString (2 : Int)
            ++ "*" ++ fmtHex02 k ++ "\r\n" ∧
      (fmtHex02 k).length = 2 ∧
      ∀ c ∈ (fmtHex02 k).toList, c ∈ "0123456789ABCDEF".toList :=
  tsa_string_field_order (TSASentence.mk 0 "A" "AI" "" "" "" 2) (by decide)

/-- C8: formatting is deterministic — the output of `TSASentence.string`
depends only on the seven field values of the sentence. -/
theorem tsa_string_deterministic (t u : TSASentence)
    (h1 : t.vdm_link = u.vdm_link) (h2 : t.channel = u.channel)
    (h3 : t.talker_id = u.talker_id) (h4 : t.unique_id = u.unique_id)
    (h5 : t.utc_hhmm = u.utc_hhmm) (h6 : t.start_slot = u.start_slot)
    (h7 : t.priority = u.priority) :
    t.string = u.string := by
  have : t = u := by
    cases t
    cases u
    simp_all
  rw [this]

/-- Witness for C8 at a concrete sentence. -/
theorem tsa_string_deterministic_witness :
    (TSASentence.mk 0 "A" "AI" "" "" "" 2).string
      = (TSASentence.mk 0 "A" "AI" "" "" "" 2).string :=
  tsa_string_deterministic _ _ rfl rfl rfl rfl rfl rfl rfl

/-! ## Concrete collaborators used by the witnesses -/

/-- A fragmentation collaborator that always returns two payload sentences. -/
def fragTwo : Unit → Nat → String → String → Except Unit (List String) :=
  fun _ _ _ _ => Except.ok ["a", "b"]

/-- A fragmentation collaborator that always returns one payload sentence. -/
def fragOne : Unit → Nat → String → String → Except Unit (List String) :=
  fun _ _ _ _ => Except.ok ["a"]

/-- A fragmentation collaborator that always returns no payload sentences. -/
def fragNone : Unit → Nat → String → String → Except Unit (List String) :=
  fun _ _ _ _ => Except.ok []

/-- A fragmentation collaborator that always fails. -/
def fragFail : Unit → Nat → String → String → Except Unit (List String) :=
  fun _ _ _ _ => Except.error ()

/-! ## Theorems for the claims about `generate_tsa_vdm` -/

/-- C2: when the fragmentation collaborator returns more than one payload
sentence, the post-call counter is `(pre + 1) % 10`; when it returns exactly
one, the counter is unchanged. -/
theorem generate_tsa_vdm_counter_advance {μ α ε : Type} (s : SentenceGenerator)
    (frag : μ → Nat → String → String → Except ε (List α))
    (msg_bs : μ) (channel unique_id utc_hhmm start_slot : String) (priority : Int)
    (L : List α)
    (h : frag msg_bs s.vdm_sequential_id channel s.talker_id = Except.ok L) :
    (1 < L.length →
      (s.generate_tsa_vdm frag msg_bs channel unique_id utc_hhmm start_slot
          priority).2.vdm_sequential_id = (s.vdm_sequential_id + 1) % 10) ∧
    (L.length = 1 →
      (s.generate_tsa_vdm frag msg_bs channel unique_id utc_hhmm start_slot
          priority).2.vdm_sequential_id = s.vdm_sequential_id) := by
  constructor
  · intro hL
    simp [SentenceGenerator.generate_tsa_vdm, h, hL]
  · intro hL
    simp [SentenceGenerator.generate_tsa_vdm, h, hL]

/-- Witness for C2: a two-fragment message advances the counter from 0 to 1. -/
theorem generate_tsa_vdm_counter_advance_witness :
    ((SentenceGenerator.mk "AI" 0).generate_tsa_vdm fragTwo () "A" "" "" ""
        2).2.vdm_sequential_id = (0 + 1) % 10 :=
  (generate_tsa_vdm_counter_advance (SentenceGenerator.mk "AI" 0) fragTwo () "A" "" "" "" 2
    ["a", "b"] rfl).1 (by decide)

/-- C3: the returned value is exactly two groups — `[control sentence]` and
the collaborator's list, in order. -/
theorem generate_tsa_vdm_grouping {μ α ε : Type} (s : SentenceGenerator)
    (frag : μ → Nat → String → String → Except ε (List α))
    (msg_bs : μ) (channel unique_id utc_hhmm start_slot : String) (priority : Int)
    (L : List α)
    (h : frag msg_bs s.vdm_sequential_id channel s.talker_id = Except.ok L) :
    (s.generate_tsa_vdm frag msg_bs channel unique_id utc_hhmm start_slot priority).1
      = Except.ok
          [[GenSentence.tsa
              (TSASentence.mk (Int.ofNat s.vdm_sequential_id) channel s.talker_id "" "" "" 2)],
           L.map GenSentence.vdm] := by
  simp [SentenceGenerator.generate_tsa_vdm, h]

/-- Witness for C3 at a concrete generator and collaborator. -/
theorem generate_tsa_vdm_grouping_witness :
    ((SentenceGenerator.mk "AI" 0).generate_tsa_vdm fragTwo () "A" "" "" "" 2).1
      = Except.ok
          [[GenSentence.tsa (TSASentence.mk (Int.ofNat 0) "A" "AI" "" "" "" 2)],
           [GenSentence.vdm "a", GenSentence.vdm "b"]] :=
  generate_tsa_vdm_grouping (SentenceGenerator.mk "AI" 0) fragTwo () "A" "" "" "" 2
    ["a", "b"] rfl

/-- C5: from counter 3 with talker `AI`, a two-fragment generate call emits a
control sentence with `vdm_link = 3`, passes sequential ID 3 to the
collaborator, and leaves the counter at 4. -/
theorem generate_tsa_vdm_scenario {μ α ε : Type}
    (frag : μ → Nat → String → String → Except ε (List α))
    (msg_bs : μ) (channel unique_id utc_hhmm start_slot : String) (priority : Int)
    (v1 v2 : α)
    (h : frag msg_bs 3 channel "AI" = Except.ok [v1, v2]) :
    (SentenceGenerator.mk "AI" 3).generate_tsa_vdm frag msg_bs channel unique_id
        utc_hhmm start_slot priority
      = (Except.ok
          [[GenSentence.tsa (TSASentence.mk 3 channel "AI" "" "" "" 2)],
           [GenSentence.vdm v1, GenSentence.vdm v2]],
         SentenceGenerator.mk "AI" 4) := by
  simp [SentenceGenerator.generate_tsa_vdm, h]

/-- Witness for C5 at a concrete collaborator. -/
theorem generate_tsa_vdm_scenario_witness :
    (SentenceGenerator.mk "AI" 3).generate_tsa_vdm fragTwo () "B" "" "" "" 2
      = (Except.ok
          [[GenSentence.tsa (TSASentence.mk 3 "B" "AI" "" "" "" 2)],
           [GenSentence.vdm "a", GenSentence.vdm "b"]],
         SentenceGenerator.mk "AI" 4) :=
  generate_tsa_vdm_scenario fragTwo () "B" "" "" "" 2 "a" "b" rfl

/-- C9: a collaborator error propagates and the generator state — counter and
talker ID — is exactly the pre-call state. -/
theorem generate_tsa_vdm_error_atomic {μ α ε : Type} (s : SentenceGenerator)
    (frag : μ → Nat → String → String → Except ε (List α))
    (msg_bs : μ) (channel unique_id utc_hhmm start_slot : String) (priority : Int)
    (e : ε)
    (h : frag msg_bs s.vdm_sequential_id channel s.talker_id = Except.error e) :
    s.generate_tsa_vdm frag msg_bs channel unique_id utc_hhmm start_slot priority
      = (Except.error e, s) := by
  simp [SentenceGenerator.generate_tsa_vdm, h]

/-- Witness for C9 at a concrete failing collaborator. -/
theorem generate_tsa_vdm_error_atomic_witness :
    (SentenceGenerator.mk "AI" 7).generate_tsa_vdm fragFail () "A" "" "" "" 2
      = (Except.error (), SentenceGenerator.mk "AI" 7) :=
  generate_tsa_vdm_error_atomic (SentenceGenerator.mk "AI" 7) fragFail () "A" "" "" "" 2
    () rfl

/-- C10: an empty collaborator result raises no error — the call returns the
control-sentence group followed by an empty second group, and the counter is
unchanged. -/
theorem generate_tsa_vdm_empty_fragments {μ α ε : Type} (s : SentenceGenerator)
    (frag : μ → Nat → String → String → Except ε (List α))
    (msg_bs : μ) (channel unique_id utc_hhmm start_slot : String) (priority : Int)
    (h : frag msg_bs s.vdm_sequential_id channel s.talker_id = Except.ok ([] : List α)) :
    s.generate_tsa_vdm frag msg_bs channel unique_id utc_hhmm start_slot priority
      = (Except.ok
          [[GenSentence.tsa
              (TSASentence.mk (Int.ofNat s.vdm_sequential_id) channel s.talker_id "" "" "" 2)],
           []], s) := by
  simp [SentenceGenerator.generate_tsa_vdm, h]

/-- Witness for C10 at a concrete empty-result collaborator. -/
theorem generate_tsa_vdm_empty_fragments_witness :
    (SentenceGenerator.mk "AI" 5).generate_tsa_vdm fragNone () "A" "" "" "" 2
      = (Except.ok
          [[GenSentence.tsa (TSASentence.mk (Int.ofNat 5) "A" "AI" "" "" "" 2)], []],
         SentenceGenerator.mk "AI" 5) :=
  generate_tsa_vdm_empty_fragments (SentenceGenerator.mk "AI" 5) fragNone () "A" "" "" "" 2
    rfl

/-- Helper: a multi-fragment call maps the whole state to the same talker ID
with the counter advanced modulo 10. -/
theorem generate_tsa_vdm_multi_state {μ α ε : Type} (s : SentenceGenerator)
    (frag : μ → Nat → String → String → Except ε (List α))
    (msg_bs : μ) (channel unique_id utc_hhmm start_slot : String) (priority : Int)
    (L : List α)
    (h : frag msg_bs s.vdm_sequential_id channel s.talker_id = Except.ok L)
    (hL : 1 < L.length) :
    (s.generate_tsa_vdm frag msg_bs channel unique_id utc_hhmm start_slot priority).2
      = SentenceGenerator.mk s.talker_id ((s.vdm_sequential_id + 1) % 10) := by
  simp [SentenceGenerator.generate_tsa_vdm, h, hL]

/-- C6: starting from counter 0, ten consecutive generate calls each of whose
messages fragments into two or more payload sentences return the counter to 0. -/
theorem generate_tsa_vdm_wraparound {μ α ε : Type}
    (frag : μ → Nat → String → String → Except ε (List α))
    (msg_bs : μ) (channel unique_id utc_hhmm start_slot : String) (priority : Int)
    (talker : String)
    (hmulti : ∀ i : Nat, ∃ L : List α,
      frag msg_bs i channel talker = Except.ok L ∧ 1 < L.length) :
    ((fun s => (SentenceGenerator.generate_tsa_vdm s frag msg_bs channel unique_id
        utc_hhmm start_slot priority).2)^[10]
      (SentenceGenerator.mk talker 0)).vdm_sequential_id = 0 := by
  have hstep : ∀ c : Nat,
      (SentenceGenerator.generate_tsa_vdm (SentenceGenerator.mk talker c) frag msg_bs
        channel unique_id utc_hhmm start_slot priority).2
        = SentenceGenerator.mk talker ((c + 1) % 10) := by
    intro c
    obtain ⟨L, hL, hlen⟩ := hmulti c
    exact generate_tsa_vdm_multi_state (SentenceGenerator.mk talker c) frag msg_bs
      channel unique_id utc_hhmm start_slot priority L hL hlen
  have haux : ∀ n c : Nat,
      ((fun s => (SentenceGenerator.generate_tsa_vdm s frag msg_bs channel unique_id
          utc_hhmm start_slot priority).2)^[n]
        (SentenceGenerator.mk talker (c % 10)))
        = SentenceGenerator.mk talker ((c + n) % 10) := by
    intro n
    induction n with
    | zero =>
      intro c
      simp
    | succ n ih =>
      intro c
      rw [Function.iterate_succ_apply]
      have hc : (c % 10 + 1) % 10 = (c + 1) % 10 := by omega
      simp only [hstep (c % 10), hc]
      have := ih (c + 1)
      have harith : c + 1 + n = c + (n + 1) := by omega
      rw [harith] at this
      exact this
  have h0 : (0 : Nat) = 0 % 10 := by norm_num
  rw [h0, haux 10 0]

/-- Witness for C6: ten iterated calls with a concrete two-fragment
collaborator return the counter to 0. -/
theorem generate_tsa_vdm_wraparound_witness :
    ((fun s => (SentenceGenerator.generate_tsa_vdm s fragTwo () "A" "" "" "" 2).2)^[10]
      (SentenceGenerator.mk "AI" 0)).vdm_sequential_id = 0 :=
  generate_tsa_vdm_wraparound fragTwo () "A" "" "" "" 2 "AI"
    (fun _ => ⟨["a", "b"], rfl, by decide⟩)

/-- C7: the counter is 0 immediately after construction, and every reachable
generator state has a counter in [0, 9]. -/
theorem sequence_counter_invariant :
    (∀ talker_id : String, (SentenceGenerator.init talker_id).vdm_sequential_id = 0) ∧
    (∀ s : SentenceGenerator, SentenceGenerator.Reachable s → s.vdm_sequential_id ≤ 9) := by
  constructor
  · intro t
    rfl
  · intro s h
    induction h with
    | start talker => exact Nat.zero_le 9
    | step s frag msg_bs channel unique_id utc_hhmm start_slot priority hr ih =>
      cases hfr : frag msg_bs s.vdm_sequential_id channel s.talker_id with
      | error e =>
        simpa [SentenceGenerator.generate_tsa_vdm, hfr] using ih
      | ok L =>
        by_cases hL : 1 < L.length
        · simp only [SentenceGenerator.generate_tsa_vdm, hfr]
          simp only [hL]
          simp
          omega
        · simpa [SentenceGenerator.generate_tsa_vdm, hfr, hL] using ih

/-- Witness for C7: the initial state, and one reachable post-call state. -/
theorem sequence_counter_invariant_witness :
    (SentenceGenerator.init "AI").vdm_sequential_id = 0 ∧
    ((SentenceGenerator.init "AI").generate_tsa_vdm fragTwo () "A" "" "" ""
        2).2.vdm_sequential_id ≤ 9 :=
  ⟨sequence_counter_invariant.1 "AI",
   sequence_counter_invariant.2 _
     (SentenceGenerator.Reachable.step (SentenceGenerator.init "AI") fragTwo () "A" "" "" "" 2
       (SentenceGenerator.Reachable.start "AI"))⟩
